import Mathlib

/-!
Verification of the whatstrax presence-tracking server.

The registry, history and authentication definitions below are shallow
embeddings of `server.ts` (the backend entry point) and of the two copies of
`auth.ts` in the repository.  The presence classifier and the probe adapter
live in `tracker.ts` / `signal-tracker.ts`, which are not part of the source
tree given here; those definitions are modelled from the specification and
are marked as such in their doc comments.
-/

namespace Whatstrax

/-! ### Presence states and classifier (modelled from the spec) -/

/-- Presence classification of a tracked device. -/
inductive PresenceState where
  | Online
  | Standby
  | Offline
deriving DecidableEq, Repr

/-- Classifier thresholds, `onlineThreshold < standbyThreshold` in intended use. -/
structure ClassifierConfig where
  onlineThreshold : Nat
  standbyThreshold : Nat
deriving DecidableEq, Repr

/-- Modelled from the spec: classification of a smoothed RTT value against the
two ordered thresholds (tracker.ts is not in the source tree). -/
def classify (cfg : ClassifierConfig) (smoothed : Nat) : PresenceState :=
  if smoothed ≤ cfg.onlineThreshold then .Online
  else if smoothed ≤ cfg.standbyThreshold then .Standby
  else .Offline

/-- Classifier state: smoothed RTT plus current presence. -/
structure ClassifierState where
  smoothed : Nat
  presence : PresenceState
deriving DecidableEq, Repr

/-- Outcome of one probe cycle. -/
inductive ProbeOutcome where
  | rttSample (rtt : Nat)
  | timeout

/-- Modelled from the spec: the classifier transition.  A timeout forces
`Offline` unconditionally; an RTT sample first updates the smoothed value
(via the supplied moving-average function `smooth`) and then classifies the
smoothed value. -/
def stepClassifier (smooth : Nat → Nat → Nat) (cfg : ClassifierConfig)
    (st : ClassifierState) : ProbeOutcome → ClassifierState
  | .timeout => { st with presence := .Offline }
  | .rttSample rtt =>
      { smoothed := smooth st.smoothed rtt
        presence := classify cfg (smooth st.smoothed rtt) }

/-! ### Probe adapter single-flight (modelled from the spec) -/

/-- An outstanding probe: identity token and send time. -/
structure ProbeRequest where
  id : Nat
  sentAt : Nat
deriving DecidableEq, Repr

/-- Result of attempting to send a probe. -/
inductive SendResult where
  | sent
  | adapterBusy
deriving DecidableEq, Repr

/-- Adapter state: the outstanding probes (the single-flight invariant says
this list never holds more than one element), the RTT samples produced so
far (most recent first), and a count of refused sends. -/
structure AdapterState where
  outstanding : List ProbeRequest
  samples : List Nat
  busyCount : Nat
deriving DecidableEq, Repr

/-- Adapter initial state: no probe outstanding, no samples. -/
def initAdapter : AdapterState := { outstanding := [], samples := [], busyCount := 0 }

/-- Modelled from the spec: the serialized-request adapter refuses to submit
a new probe while one is outstanding, reporting a busy condition instead of
queuing; otherwise it occupies the slot. -/
def sendProbe (s : AdapterState) (id t : Nat) : SendResult × AdapterState :=
  if s.outstanding.isEmpty then
    (.sent, { s with outstanding := [{ id := id, sentAt := t }] })
  else
    (.adapterBusy, { s with busyCount := s.busyCount + 1 })

/-- Modelled from the spec: a matching ack resolves the outstanding probe and
produces one RTT sample; an ack that cannot be matched to the occupied slot
is dropped. -/
def onAck (s : AdapterState) (id t : Nat) : AdapterState :=
  match s.outstanding with
  | [p] =>
      if p.id = id then
        { s with outstanding := [], samples := (t - p.sentAt) :: s.samples }
      else s
  | _ => s

/-- Modelled from the spec: expiry of the timeout deadline clears the slot
and produces no RTT sample. -/
def onTimeout (s : AdapterState) : AdapterState := { s with outstanding := [] }

/-- A raw transport event fed to the adapter. -/
inductive TransportEvent where
  | send (id t : Nat)
  | ack (id t : Nat)
  | timeout

/-- One step of the adapter on a transport event. -/
def stepAdapter (s : AdapterState) : TransportEvent → AdapterState
  | .send id t => (sendProbe s id t).2
  | .ack id t => onAck s id t
  | .timeout => onTimeout s

/-- Run the adapter over an interleaving of transport events. -/
def runAdapter (es : List TransportEvent) : AdapterState :=
  es.foldl stepAdapter initAdapter

/-! ### Tracker registry (from server.ts) -/

/-- Per-target tracker state.  The smoothing and presence fields stand for
the classifier state the tracker object carries; `active` is modelled from
the spec (stopTracking cancels the probe clock). -/
structure TrackerState where
  smoothed : Nat
  presence : PresenceState
  active : Bool
deriving DecidableEq, Repr

/-- A freshly created tracker (new WhatsAppTracker). -/
def freshTracker : TrackerState :=
  { smoothed := 0, presence := .Offline, active := true }

/-- The trackers map of server.ts, as an association list keyed by jid. -/
abbrev Registry := List (String × TrackerState)

/-- trackers.get(jid): first binding for the key, if any. -/
def lookupTracker (ts : Registry) (jid : String) : Option TrackerState :=
  (ts.find? (fun p => p.1 == jid)).map Prod.snd

/-- The digit cleanup of startTrackingWhatsApp: number.replace of every
non-digit character by nothing. -/
def cleanNumber (number : String) : String :=
  String.mk (number.toList.filter Char.isDigit)

/-- The jid derived from a raw input number in startTrackingWhatsApp. -/
def targetJidOf (number : String) : String :=
  cleanNumber number ++ ("@s.whatsapp.net")

/-- Result of an add-contact request. -/
inductive AddResult where
  | added (jid : String)
  | duplicate
  | notOnWhatsApp
deriving DecidableEq, Repr

/-- Externally observable events emitted over the socket. -/
inductive OutEvent where
  | errorEvent (jid msg : String)
  | contactAdded (jid number : String)
  | contactRemoved (jid : String)
  | trackerUpdate (jid : String)
deriving DecidableEq, Repr

/-- trackers.set(jid, t) of the JavaScript Map: when the key is already
bound its binding is replaced in place, otherwise the new binding is
appended at the end. -/
def setTracker (reg : Registry) (jid : String) (t : TrackerState) : Registry :=
  if (lookupTracker reg jid).isSome then
    reg.map (fun p => if p.1 == jid then (jid, t) else p)
  else reg ++ [(jid, t)]

/-- startTrackingWhatsApp of server.ts.  `resolve` models sock.onWhatsApp:
it returns the canonical jid when the number exists on the platform.  The
duplicate check runs before any resolution and checks the jid derived from
the input digits, while the insert keys on the resolved jid; a duplicate
leaves the registry untouched and, when `emitError` is set, surfaces an
explicit error event. -/
def startTracking (resolve : String → Option String) (reg : Registry)
    (number : String) (emitError : Bool) : AddResult × Registry × List OutEvent :=
  if (lookupTracker reg (targetJidOf number)).isSome then
    (.duplicate, reg,
      if emitError then
        [.errorEvent (targetJidOf number) ("Already tracking this contact")]
      else [])
  else
    match resolve (targetJidOf number) with
    | some jid =>
        (.added jid, setTracker reg jid freshTracker,
          [.contactAdded jid (cleanNumber number)])
    | none =>
        (.notOnWhatsApp, reg,
          if emitError then
            [.errorEvent (targetJidOf number) ("Number not on WhatsApp")]
          else [])

/-- Modelled from the spec: stopTracking cancels the probe clock, so the
tracker object becomes inactive. -/
def stopTracker (t : TrackerState) : TrackerState := { t with active := false }

/-- Modelled from the spec: a tracker emits a presence sample only while its
probe clock is active. -/
def emitSample (jid : String) (t : TrackerState) (_rtt : Nat) : List OutEvent :=
  if t.active then [.trackerUpdate jid] else []

/-- The remove-contact handler of server.ts: when the jid is tracked, stop
the tracker, delete it from the registry and emit contact-removed; when it
is not tracked, nothing at all happens. -/
def removeContact (reg : Registry) (jid : String) : Registry × List OutEvent :=
  match lookupTracker reg jid with
  | some _ =>
      (reg.filter (fun p => !(p.1 == jid)), [.contactRemoved jid])
  | none => (reg, [])

/-! ### Connection lifecycle (from the connection.update handler of server.ts) -/

/-- Server state relevant to the connection lifecycle: the shared transport
connectivity flag and the trackers registry. -/
structure ServerState where
  connected : Bool
  trackers : Registry
deriving DecidableEq, Repr

/-- Server state at startup: transport down, no trackers. -/
def initServer : ServerState := { connected := false, trackers := [] }

/-- The connection close branch of the connection.update handler: the
connectivity flag drops, the trackers map is left untouched. -/
def onClose (s : ServerState) : ServerState := { s with connected := false }

/-- The number part of a stored jid, jid.split at the at-sign taken at
index zero: the prefix before the first at-sign. -/
def numberPartOf (jid : String) : String :=
  String.mk (jid.toList.takeWhile (fun c => !(c == ('@'))))

/-- One step of the restore loop of the connection open branch: a contact
already present in the registry is skipped, otherwise startTrackingWhatsApp
runs for the number part of the stored jid with error emission off. -/
def restoreOne (resolve : String → Option String) (reg : Registry) (jid : String) : Registry :=
  if (lookupTracker reg jid).isSome then reg
  else (startTracking resolve reg (numberPartOf jid) false).2.1

/-- The connection open branch of the connection.update handler: raise the
connectivity flag and restore the persisted contacts that are not already
tracked. -/
def onOpen (resolve : String → Option String) (initialContacts : List String)
    (s : ServerState) : ServerState :=
  { connected := true
    trackers := initialContacts.foldl (restoreOne resolve) s.trackers }

/-- Modelled from the spec: a probe may be issued for a target exactly when
the shared transport is connected and the target is tracked. -/
def probeAllowed (s : ServerState) (jid : String) : Bool :=
  s.connected && (lookupTracker s.trackers jid).isSome

/-! ### History cache and sink (from server.ts) -/

/-- One persisted data point for a tracked contact. -/
structure DataPoint where
  jid : String
  presence : PresenceState
  rtt : Nat
  timestamp : Nat
deriving DecidableEq, Repr

/-- A sample concrete data point, used to instantiate theorems. -/
def d0 : DataPoint := { jid := ("a"), presence := .Online, rtt := 180, timestamp := 0 }

/-- The per-contact append of appendHistory: when the retained list already
holds more than 1000 points the oldest one is shifted off before the new
point is pushed on the end. -/
def appendOne (h : List DataPoint) (d : DataPoint) : List DataPoint :=
  (if 1000 < h.length then h.tail else h) ++ [d]

/-- The historyCache object of server.ts, as a total map from jid to the
retained list (a missing key reads as the empty list). -/
def HistoryCache : Type := String → List DataPoint

/-- The empty history cache. -/
def emptyHistory : HistoryCache := fun _ => []

/-- appendHistory of server.ts, acting on the cache map. -/
def appendHistory (c : HistoryCache) (jid : String) (d : DataPoint) : HistoryCache :=
  fun j => if j == jid then appendOne (c jid) d else c j

/-- Replay a whole sequence of appended data points from an empty cache. -/
def runAppends (ps : List (String × DataPoint)) : HistoryCache :=
  ps.foldl (fun c p => appendHistory c p.1 p.2) emptyHistory

/-- Outcome of the underlying file-system write. -/
inductive FsResult where
  | ok
  | ioError (msg : String)
deriving DecidableEq, Repr

/-- A log line produced by the server. -/
inductive LogEvent where
  | loggedError (msg : String)
deriving DecidableEq, Repr

/-- The raw fs.writeFileSync call, which throws on failure. -/
def writeHistoryFile (fs : FsResult) : Except String Unit :=
  match fs with
  | .ok => .ok ()
  | .ioError m => .error m

/-- saveHistory of server.ts: the write is wrapped in a try/catch that logs
the failure and returns normally. -/
def saveHistory (fs : FsResult) : List LogEvent :=
  match writeHistoryFile fs with
  | .ok _ => []
  | .error m => [.loggedError m]

/-- appendHistory followed by saveHistory, as in server.ts: the cache is
updated first and the save outcome cannot touch it. -/
def appendHistoryAndSave (c : HistoryCache) (jid : String) (d : DataPoint)
    (fs : FsResult) : HistoryCache × List LogEvent :=
  (appendHistory c jid d, saveHistory fs)

/-! ### Allowed-email parsing (from the two copies of auth.ts) -/

/-- The JavaScript split on a comma separator: the empty string splits to a
one-element list holding the empty string, and a trailing separator yields a
trailing empty field. -/
def splitCommaAux : List Char → List Char → List String
  | [], acc => [String.mk acc.reverse]
  | c :: cs, acc =>
      if c = (',') then String.mk acc.reverse :: splitCommaAux cs []
      else splitCommaAux cs (c :: acc)

/-- env.split of a comma, as in both copies of auth.ts. -/
def splitComma (s : String) : List String := splitCommaAux s.toList []

/-- The JavaScript String trim: drop whitespace from both ends. -/
def trimString (s : String) : String :=
  String.mk (((s.toList.dropWhile Char.isWhitespace).reverse.dropWhile Char.isWhitespace).reverse)

/-- The ALLOWED_EMAILS list of src/src/auth.ts: split on commas, trim. -/
def allowedEmailsBase (env : String) : List String :=
  (splitComma env).map trimString

/-- The ALLOWED_EMAILS list of the auth.ts copy in src/unnamed/part_001:
split on commas, trim, drop empty entries. -/
def allowedEmailsFiltered (env : String) : List String :=
  ((splitComma env).map trimString).filter (fun e => 0 < e.length)

/-- Decision of the Google-strategy verify callback. -/
inductive AuthDecision where
  | errorNoEmail
  | blocked
  | approved
deriving DecidableEq, Repr

/-- The verify callback shared by both copies of auth.ts: a missing or empty
profile email is an error; a non-empty allow list that does not hold the
email blocks the login; otherwise the login is approved. -/
def verifyEmail (allowed : List String) (email : Option String) : AuthDecision :=
  match email with
  | none => .errorNoEmail
  | some e =>
      if e = ("") then .errorNoEmail
      else if 0 < allowed.length && !(allowed.contains e) then .blocked
      else .approved

/-- The verify callback with the unfiltered allow list of src/src/auth.ts. -/
def verifyBase (env : String) (email : Option String) : AuthDecision :=
  verifyEmail (allowedEmailsBase env) email

/-- The verify callback with the filtered allow list of src/unnamed/part_001. -/
def verifyFiltered (env : String) (email : Option String) : AuthDecision :=
  verifyEmail (allowedEmailsFiltered env) email

/-- The filtered allow list is the base list with empty entries dropped. -/
theorem allowedEmailsFiltered_eq (env : String) :
    allowedEmailsFiltered env = (allowedEmailsBase env).filter (fun e => 0 < e.length) := rfl

/-! ### Helper lemmas -/

/-- Replacing the bindings of a different key does not change a lookup. -/
theorem lookupTracker_replaceAll_ne (reg : Registry) (jid jid₂ : String)
    (t₂ : TrackerState) (hne : jid₂ ≠ jid) :
    lookupTracker (reg.map (fun p => if p.1 == jid₂ then (jid₂, t₂) else p)) jid
      = lookupTracker reg jid := by
  induction reg with
  | nil => rfl
  | cons p rest ih =>
      unfold lookupTracker at ih ⊢
      rw [List.map_cons, List.find?_cons, List.find?_cons]
      by_cases hp : (p.1 == jid₂) = true
      · have hk : ((if p.1 == jid₂ then (jid₂, t₂) else p).1 == jid) = false := by
          rw [if_pos hp]
          exact beq_eq_false_iff_ne.mpr hne
        have hk₂ : (p.1 == jid) = false := by
          rw [eq_of_beq hp]
          exact beq_eq_false_iff_ne.mpr hne
        rw [hk, hk₂]
        exact ih
      · have hpf : (p.1 == jid₂) = false := by
          cases hb : p.1 == jid₂ with
          | false => rfl
          | true => exact absurd hb hp
        have hk : ((if p.1 == jid₂ then (jid₂, t₂) else p).1 == jid) = (p.1 == jid) := by
          rw [if_neg (by rw [hpf]; exact Bool.false_ne_true)]
        rw [hk]
        cases hj : p.1 == jid with
        | true => rw [if_neg (by rw [hpf]; exact Bool.false_ne_true)]
        | false => exact ih

/-- Appending a binding for a different key does not change a lookup. -/
theorem lookupTracker_append_ne (reg : Registry) (jid jid₂ : String)
    (t₂ : TrackerState) (hne : jid₂ ≠ jid) :
    lookupTracker (reg ++ [(jid₂, t₂)]) jid = lookupTracker reg jid := by
  unfold lookupTracker
  rw [List.find?_append]
  cases hf : List.find? (fun p => p.1 == jid) reg with
  | some q => rfl
  | none =>
      simp only [Option.none_or]
      rw [List.find?_cons]
      simp only [beq_eq_false_iff_ne.mpr hne]
      rfl

/-- Map.set on a different key does not change a lookup. -/
theorem lookupTracker_setTracker_ne (reg : Registry) (jid jid₂ : String)
    (t₂ : TrackerState) (hne : jid₂ ≠ jid) :
    lookupTracker (setTracker reg jid₂ t₂) jid = lookupTracker reg jid := by
  unfold setTracker
  by_cases hs : (lookupTracker reg jid₂).isSome = true
  · rw [if_pos hs]
    exact lookupTracker_replaceAll_ne reg jid jid₂ t₂ hne
  · rw [if_neg hs]
    exact lookupTracker_append_ne reg jid jid₂ t₂ hne

/-- Deleting a key from a registry makes its lookup fail. -/
theorem lookupTracker_filter_self (reg : Registry) (jid : String) :
    lookupTracker (reg.filter (fun p => !(p.1 == jid))) jid = none := by
  unfold lookupTracker
  have : List.find? (fun p => p.1 == jid) (reg.filter (fun p => !(p.1 == jid))) = none := by
    rw [List.find?_eq_none]
    intro x hx
    have hpx := (List.mem_filter.mp hx).2
    simp only [Bool.not_eq_eq_eq_not, Bool.not_true] at hpx
    simp [hpx]
  rw [this]
  rfl

/-- After removeContact the jid is no longer tracked, whether or not it was. -/
theorem removeContact_lookup_none (reg : Registry) (jid : String) :
    lookupTracker (removeContact reg jid).1 jid = none := by
  unfold removeContact
  cases h : lookupTracker reg jid with
  | none => simpa using h
  | some t => simp only; exact lookupTracker_filter_self reg jid

/-- removeContact on an untracked jid is a silent no-op. -/
theorem removeContact_not_found (reg : Registry) (jid : String)
    (h : lookupTracker reg jid = none) : removeContact reg jid = (reg, []) := by
  simp [removeContact, h]

/-- startTracking does not alter an existing binding provided the request
does not resolve onto that binding's jid (the insert keys on the resolved
jid, so a colliding resolution would replace the binding). -/
theorem startTracking_preserves (resolve : String → Option String) (reg : Registry)
    (number : String) (emitError : Bool) (jid : String) (t : TrackerState)
    (h : lookupTracker reg jid = some t)
    (hnc : resolve (targetJidOf number) ≠ some jid) :
    lookupTracker (startTracking resolve reg number emitError).2.1 jid = some t := by
  unfold startTracking
  by_cases hd : (lookupTracker reg (targetJidOf number)).isSome
  · simp [hd, h]
  · cases hr : resolve (targetJidOf number) with
    | some jid₂ =>
        have hne : jid₂ ≠ jid := by
          intro he
          rw [he] at hr
          exact hnc hr
        simp only [hd, Bool.false_eq_true, if_false, hr]
        rw [lookupTracker_setTracker_ne reg jid jid₂ freshTracker hne]
        exact h
    | none => simp [hd, hr, h]

/-- One restore step of the reconnection handler does not alter an existing
binding the restored contact does not resolve onto. -/
theorem restoreOne_preserves (resolve : String → Option String) (reg : Registry)
    (j jid : String) (t : TrackerState) (h : lookupTracker reg jid = some t)
    (hnc : resolve (targetJidOf (numberPartOf j)) ≠ some jid) :
    lookupTracker (restoreOne resolve reg j) jid = some t := by
  unfold restoreOne
  by_cases hj : (lookupTracker reg j).isSome
  · simpa [hj] using h
  · simp only [hj, Bool.false_eq_true, if_false]
    exact startTracking_preserves resolve reg _ false jid t h hnc

/-- The whole restore loop does not alter an existing binding that none of
the restored contacts resolves onto. -/
theorem foldl_restore_preserves (resolve : String → Option String) (ic : List String)
    (reg : Registry) (jid : String) (t : TrackerState)
    (h : lookupTracker reg jid = some t)
    (hnc : ∀ j ∈ ic, resolve (targetJidOf (numberPartOf j)) ≠ some jid) :
    lookupTracker (ic.foldl (restoreOne resolve) reg) jid = some t := by
  induction ic generalizing reg with
  | nil => exact h
  | cons j rest ih =>
      exact ih _ (restoreOne_preserves resolve reg j jid t h (hnc j (List.mem_cons_self j rest)))
        (fun j₂ hj₂ => hnc j₂ (List.mem_cons_of_mem j hj₂))

/-- One adapter step keeps at most one probe outstanding. -/
theorem stepAdapter_outstanding_le (s : AdapterState) (e : TransportEvent)
    (h : s.outstanding.length ≤ 1) : (stepAdapter s e).outstanding.length ≤ 1 := by
  obtain ⟨outs, samp, busy⟩ := s
  cases e with
  | send id t =>
      cases outs with
      | nil => simp [stepAdapter, sendProbe]
      | cons p rest => simpa [stepAdapter, sendProbe] using h
  | ack id t =>
      cases outs with
      | nil => simp [stepAdapter, onAck]
      | cons p rest =>
          cases rest with
          | nil => by_cases hid : p.id = id <;> simp [stepAdapter, onAck, hid]
          | cons q r => simp only [stepAdapter, onAck]; exact h
  | timeout => simp [stepAdapter, onTimeout]

/-- The single-flight bound is an inductive invariant of the adapter run. -/
theorem foldl_stepAdapter_le (es : List TransportEvent) (s : AdapterState)
    (h : s.outstanding.length ≤ 1) : (es.foldl stepAdapter s).outstanding.length ≤ 1 := by
  induction es generalizing s with
  | nil => exact h
  | cons e rest ih => exact ih _ (stepAdapter_outstanding_le s e h)

/-- One append keeps the retained history within 1001 points. -/
theorem appendOne_length_le (h : List DataPoint) (d : DataPoint)
    (hh : h.length ≤ 1001) : (appendOne h d).length ≤ 1001 := by
  unfold appendOne
  by_cases hl : 1000 < h.length
  · simp only [hl, if_true, List.length_append, List.length_tail, List.length_singleton]
    omega
  · simp only [hl, if_false, List.length_append, List.length_singleton]
    omega

/-- The 1001-point bound is an inductive invariant of replaying appends. -/
theorem appends_bounded (ps : List (String × DataPoint)) (c : HistoryCache)
    (hc : ∀ j, (c j).length ≤ 1001) :
    ∀ j, ((ps.foldl (fun c p => appendHistory c p.1 p.2) c) j).length ≤ 1001 := by
  induction ps generalizing c with
  | nil => exact hc
  | cons p rest ih =>
      refine ih _ ?_
      intro j
      unfold appendHistory
      by_cases hj : (j == p.1) = true
      · simp only [hj, if_true]
        exact appendOne_length_le _ _ (hc p.1)
      · simp only [hj, if_false]
        exact hc j

/-! ### Concrete fixtures used to instantiate theorems -/

/-- A concrete tracked jid. -/
def jid0 : String := ("12345678900@s.whatsapp.net")

/-- A concrete tracker with non-trivial smoothing state. -/
def tr0 : TrackerState := { smoothed := 250, presence := .Online, active := true }

/-- A one-entry registry tracking jid0. -/
def reg0 : Registry := [(jid0, tr0)]

/-- A connected server state tracking jid0. -/
def srv0 : ServerState := { connected := true, trackers := reg0 }

/-- A canonical jid as the platform reports it (with the extra mobile 9 of
a Brazilian number). -/
def jidBr : String := ("5511987654321@s.whatsapp.net")

/-- The same account under its stored, non-canonical spelling (without the
extra 9), as it may sit in contacts.json. -/
def jidOld : String := ("551187654321@s.whatsapp.net")

/-- A connected server state tracking the canonical jid with non-trivial
smoothing state. -/
def srvBr : ServerState := { connected := true, trackers := [(jidBr, tr0)] }

/-- A resolution function that canonicalizes: sock.onWhatsApp maps the old
spelling onto the canonical jid. -/
def resolveBr : String → Option String := fun _ => some jidBr

/-! ### Claims -/

/-- Claim C1: the presence classifier maps a Timeout outcome to Offline
unconditionally; an RttSample outcome first updates the smoothed RTT and
then classifies the smoothed value against the two ordered thresholds, with
smoothed at most onlineThreshold giving Online, between the thresholds
giving Standby and beyond standbyThreshold giving Offline; with thresholds
300 and 800 the smoothed values 150, 500 and 1500 classify as Online,
Standby and Offline respectively. -/
theorem C1_classifier_transition (smooth : Nat → Nat → Nat) (cfg : ClassifierConfig)
    (hord : cfg.onlineThreshold < cfg.standbyThreshold) (st : ClassifierState) :
    (stepClassifier smooth cfg st .timeout).presence = .Offline
    ∧ (∀ rtt, (stepClassifier smooth cfg st (.rttSample rtt)).smoothed = smooth st.smoothed rtt)
    ∧ (∀ rtt, smooth st.smoothed rtt ≤ cfg.onlineThreshold →
        (stepClassifier smooth cfg st (.rttSample rtt)).presence = .Online)
    ∧ (∀ rtt, cfg.onlineThreshold < smooth st.smoothed rtt →
        smooth st.smoothed rtt ≤ cfg.standbyThreshold →
        (stepClassifier smooth cfg st (.rttSample rtt)).presence = .Standby)
    ∧ (∀ rtt, cfg.standbyThreshold < smooth st.smoothed rtt →
        (stepClassifier smooth cfg st (.rttSample rtt)).presence = .Offline)
    ∧ classify { onlineThreshold := 300, standbyThreshold := 800 } 150 = .Online
    ∧ classify { onlineThreshold := 300, standbyThreshold := 800 } 500 = .Standby
    ∧ classify { onlineThreshold := 300, standbyThreshold := 800 } 1500 = .Offline := by
  refine ⟨rfl, fun rtt => rfl, ?_, ?_, ?_, by decide, by decide, by decide⟩
  · intro rtt hle
    show classify cfg (smooth st.smoothed rtt) = .Online
    unfold classify
    rw [if_pos hle]
  · intro rtt h1 h2
    show classify cfg (smooth st.smoothed rtt) = .Standby
    unfold classify
    rw [if_neg (Nat.not_le.mpr h1), if_pos h2]
  · intro rtt h3
    show classify cfg (smooth st.smoothed rtt) = .Offline
    unfold classify
    rw [if_neg (Nat.not_le.mpr (lt_trans hord h3)), if_neg (Nat.not_le.mpr h3)]

/-- Witness for C1 at thresholds 300 and 800. -/
theorem C1_witness :
    (stepClassifier (fun _ rtt => rtt) { onlineThreshold := 300, standbyThreshold := 800 }
        { smoothed := 1500, presence := .Online } .timeout).presence = .Offline
    ∧ classify { onlineThreshold := 300, standbyThreshold := 800 } 500 = .Standby := by
  have h := C1_classifier_transition (fun _ rtt => rtt)
      { onlineThreshold := 300, standbyThreshold := 800 } (by decide)
      { smoothed := 1500, presence := .Online }
  exact ⟨h.1, h.2.2.2.2.2.2.1⟩

/-- Claim C2: over every interleaving of transport events at most one probe
request is outstanding at any instant, and a send attempted while one is
outstanding reports the busy condition, leaves the samples unchanged (no
duplicate RTT sample) and does not occupy a second slot. -/
theorem C2_single_flight :
    (∀ es, (runAdapter es).outstanding.length ≤ 1)
    ∧ ∀ (s : AdapterState) (id t : Nat), s.outstanding ≠ [] →
        (sendProbe s id t).1 = .adapterBusy
        ∧ (sendProbe s id t).2.samples = s.samples
        ∧ (sendProbe s id t).2.outstanding = s.outstanding := by
  constructor
  · intro es
    exact foldl_stepAdapter_le es initAdapter (by simp [initAdapter])
  · intro s id t hne
    obtain ⟨outs, samp, busy⟩ := s
    cases outs with
    | nil => exact absurd rfl hne
    | cons p rest => simp [sendProbe]

/-- Witness for C2 on a concrete interleaving with a send attempted while a
probe is outstanding. -/
theorem C2_witness :
    (runAdapter [.send 1 0, .send 2 5, .ack 1 100]).outstanding.length ≤ 1
    ∧ (sendProbe { outstanding := [{ id := 1, sentAt := 0 }], samples := [], busyCount := 0 }
        2 5).1 = .adapterBusy := by
  refine ⟨C2_single_flight.1 _, ?_⟩
  exact (C2_single_flight.2
    { outstanding := [{ id := 1, sentAt := 0 }], samples := [], busyCount := 0 }
    2 5 (by simp)).1

/-- Counterexample for C3: the canonical jid is tracked with smoothed RTT
250 before the transport closes, yet after reconnection the restore loop
re-adds the stored non-canonical spelling of the same account, the platform
resolves it onto the canonical jid, and trackers.set replaces the existing
tracker — the session state is reset to a fresh tracker, not preserved. -/
theorem C3_counterexample :
    lookupTracker srvBr.trackers jidBr = some tr0
    ∧ ¬ lookupTracker (onOpen resolveBr [jidOld] (onClose srvBr)).trackers jidBr = some tr0
    ∧ lookupTracker (onOpen resolveBr [jidOld] (onClose srvBr)).trackers jidBr
        = some freshTracker
    ∧ freshTracker ≠ tr0 := by
  refine ⟨by decide, by decide, by decide, by decide⟩

/-- Claim C3 (amended): closing the shared transport leaves the trackers
registry untouched, and after the reconnection handler runs, every session
that was tracked before the close — and onto whose jid none of the restored
persisted contacts resolves — is still tracked with exactly the same
tracker state (no reset, no re-creation) and is again allowed to probe. -/
theorem C3_reconnection_continuity (resolve : String → Option String)
    (ic : List String) (s : ServerState) (jid : String) (t : TrackerState)
    (h : lookupTracker s.trackers jid = some t)
    (hnc : ∀ j ∈ ic, resolve (targetJidOf (numberPartOf j)) ≠ some jid) :
    (onClose s).trackers = s.trackers
    ∧ lookupTracker (onOpen resolve ic (onClose s)).trackers jid = some t
    ∧ probeAllowed (onOpen resolve ic (onClose s)) jid = true := by
  have hp : lookupTracker (onOpen resolve ic (onClose s)).trackers jid = some t := by
    unfold onOpen onClose
    exact foldl_restore_preserves resolve ic s.trackers jid t h hnc
  refine ⟨rfl, hp, ?_⟩
  unfold probeAllowed
  rw [hp]
  rfl

/-- Witness for C3: a session with smoothed RTT 250 survives a close and
reopen of the transport unchanged when the restored contact resolves to
nothing. -/
theorem C3_witness :
    lookupTracker (onOpen (fun _ => none) [jid0] (onClose srv0)).trackers jid0 = some tr0
    ∧ probeAllowed (onOpen (fun _ => none) [jid0] (onClose srv0)) jid0 = true := by
  have h := C3_reconnection_continuity (fun _ => none) [jid0] srv0 jid0 tr0 (by decide)
      (by intro j hj he; exact Option.noConfusion he)
  exact ⟨h.2.1, h.2.2⟩

/-- Claim C4: an add-contact request for a target whose derived jid is
already in the registry is rejected with the explicit duplicate error event,
the registry is returned unchanged (so no second tracker or probe clock is
created and the existing tracker keeps its state), and no resolution or
tracker construction happens. -/
theorem C4_duplicate_guard (resolve : String → Option String) (reg : Registry)
    (number : String) (h : (lookupTracker reg (targetJidOf number)).isSome = true) :
    startTracking resolve reg number true =
      (.duplicate, reg,
        [.errorEvent (targetJidOf number) ("Already tracking this contact")]) := by
  simp [startTracking, h]

/-- Witness for C4: adding the already-tracked number 12345678900 again. -/
theorem C4_witness :
    startTracking (fun _ => none) reg0 ("12345678900") true =
      (.duplicate, reg0,
        [.errorEvent (targetJidOf ("12345678900")) ("Already tracking this contact")]) :=
  C4_duplicate_guard (fun _ => none) reg0 ("12345678900") (by decide)

/-- Counterexample for C5: removing a jid that is not tracked emits no event
at all — in particular no TargetNotFound rejection — and just returns the
unchanged registry, so the operation is silently ignored rather than
explicitly rejected as the claim states. -/
theorem C5_counterexample :
    lookupTracker initServer.trackers ("99999@s.whatsapp.net") = none
    ∧ (removeContact initServer.trackers ("99999@s.whatsapp.net")).2 = []
    ∧ (removeContact initServer.trackers ("99999@s.whatsapp.net")).1 = initServer.trackers :=
  ⟨rfl, rfl, rfl⟩

/-- Claim C5 (amended): a remove-contact request naming an untracked jid is
silently ignored — the registry is unchanged and no event of any kind is
emitted; no exception propagates into the engine loop. -/
theorem C5_remove_unknown_silent (reg : Registry) (jid : String)
    (h : lookupTracker reg jid = none) :
    removeContact reg jid = (reg, []) :=
  removeContact_not_found reg jid h

/-- Witness for C5 on the empty registry. -/
theorem C5_witness :
    removeContact initServer.trackers ("99999@s.whatsapp.net") = (initServer.trackers, []) :=
  C5_remove_unknown_silent initServer.trackers ("99999@s.whatsapp.net") (by decide)

/-- Claim C6: stop is idempotent — after one removeContact the jid is no
longer tracked, so a second removeContact is a no-op returning the same
registry and emitting nothing, and a stopped tracker emits no further
presence samples. -/
theorem C6_stop_idempotent (reg : Registry) (jid : String) :
    lookupTracker (removeContact reg jid).1 jid = none
    ∧ removeContact (removeContact reg jid).1 jid = ((removeContact reg jid).1, [])
    ∧ ∀ (j : String) (t : TrackerState) (rtt : Nat), emitSample j (stopTracker t) rtt = [] := by
  refine ⟨removeContact_lookup_none reg jid, ?_, ?_⟩
  · exact removeContact_not_found _ jid (removeContact_lookup_none reg jid)
  · intro j t rtt
    simp [emitSample, stopTracker]

/-- Claim C7: replaying any sequence of appended data points from an empty
cache leaves every target with at most 1001 retained points (the fixed cap
of appendHistory), and once a history holds more than 1000 points an append
drops the oldest point before pushing the new one. -/
theorem C7_bounded_history (ps : List (String × DataPoint)) (jid : String) :
    ((runAppends ps) jid).length ≤ 1001
    ∧ ∀ (h : List DataPoint) (d : DataPoint), 1000 < h.length →
        appendOne h d = h.tail ++ [d] := by
  constructor
  · exact appends_bounded ps emptyHistory (fun _ => by simp [emptyHistory]) jid
  · intro h d hl
    simp [appendOne, hl]

/-- Witness for C7: one concrete append stays within the cap, and an append
onto a history of 1001 points drops the oldest. -/
theorem C7_witness :
    ((runAppends [(("a"), d0)]) ("a")).length ≤ 1001
    ∧ appendOne (List.replicate 1001 d0) d0 = (List.replicate 1001 d0).tail ++ [d0] := by
  have h := C7_bounded_history [(("a"), d0)] ("a")
  exact ⟨h.1, h.2 (List.replicate 1001 d0) d0 (by rw [List.length_replicate]; omega)⟩

/-- Claim C8: a failed save leaves the in-memory cache in exactly the state
a successful save would leave it in, with the new data point appended for
its target, and the failure is logged rather than thrown (saveHistory
returns normally with a log line). -/
theorem C8_sink_error_tolerance (c : HistoryCache) (jid : String) (d : DataPoint)
    (m : String) :
    (appendHistoryAndSave c jid d (.ioError m)).1 = (appendHistoryAndSave c jid d .ok).1
    ∧ (appendHistoryAndSave c jid d (.ioError m)).1 jid = appendOne (c jid) d
    ∧ saveHistory (.ioError m) = [.loggedError m] := by
  refine ⟨rfl, ?_, rfl⟩
  simp [appendHistoryAndSave, appendHistory]

/-- Claim C9: startTrackingWhatsApp derives the target jid by keeping only
the digits of the input and appending the server suffix, so two inputs with
the same digit content denote the same jid, and adding the second while the
first is tracked is rejected as a duplicate with the registry unchanged. -/
theorem C9_identity_normalization (a b : String)
    (hd : a.toList.filter Char.isDigit = b.toList.filter Char.isDigit) :
    targetJidOf a = targetJidOf b
    ∧ ∀ (resolve : String → Option String) (reg : Registry),
        (lookupTracker reg (targetJidOf a)).isSome = true →
        startTracking resolve reg b true =
          (.duplicate, reg,
            [.errorEvent (targetJidOf b) ("Already tracking this contact")]) := by
  have hj : targetJidOf a = targetJidOf b := by
    unfold targetJidOf cleanNumber
    rw [hd]
  refine ⟨hj, ?_⟩
  intro resolve reg h
  rw [hj] at h
  simp [startTracking, h]

/-- Witness for C9 on a formatted and an unformatted spelling of the same
number. -/
theorem C9_witness :
    targetJidOf ("+1 (234) 567-8900") = targetJidOf ("12345678900")
    ∧ startTracking (fun _ => none) reg0 ("12345678900") true =
        (.duplicate, reg0,
          [.errorEvent (targetJidOf ("12345678900")) ("Already tracking this contact")]) := by
  have h := C9_identity_normalization ("+1 (234) 567-8900") ("12345678900") (by decide)
  exact ⟨h.1, h.2 (fun _ => none) reg0 (by decide)⟩

/-- Counterexample for C10: with ALLOWED_EMAILS unset or empty the
unfiltered parser of src/src/auth.ts yields the one-entry list holding the
empty string, so it blocks every login, while the filtered parser of
src/unnamed/part_001 yields the empty list and permits every login — the
two parsers do not accept the same set of emails. -/
theorem C10_counterexample :
    verifyBase ("") (some ("user@example.com")) = .blocked
    ∧ verifyFiltered ("") (some ("user@example.com")) = .approved := by
  constructor <;> decide

/-- Claim C10 (amended): whenever the split-and-trimmed ALLOWED_EMAILS list
has at least one non-empty entry the two parsers accept exactly the same set
of login emails; but when the variable is unset or empty the filtered
parser permits every email while the unfiltered one blocks every email. -/
theorem C10_parsers_agree (env : String) :
    (∀ (email : Option String), allowedEmailsFiltered env ≠ [] →
        verifyBase env email = verifyFiltered env email)
    ∧ ∀ (e : String), e ≠ ("") →
        verifyBase ("") (some e) = .blocked ∧ verifyFiltered ("") (some e) = .approved := by
  constructor
  · intro email hne
    cases email with
    | none => rfl
    | some e =>
        simp only [verifyBase, verifyFiltered, verifyEmail]
        by_cases he : e = ("")
        · rw [if_pos he, if_pos he]
        · rw [if_neg he, if_neg he]
          have hepos : 0 < e.length := by
            rcases e with ⟨cs⟩
            cases cs with
            | nil => exact absurd rfl he
            | cons c cs => simp [String.length]
          have hlenF : 0 < (allowedEmailsFiltered env).length := List.length_pos.mpr hne
          have hlenB : 0 < (allowedEmailsBase env).length := by
            have hle := List.length_filter_le (fun e => 0 < e.length) (allowedEmailsBase env)
            rw [allowedEmailsFiltered_eq] at hlenF
            omega
          have hceq : (allowedEmailsBase env).contains e
              = (allowedEmailsFiltered env).contains e := by
            rw [allowedEmailsFiltered_eq]
            cases hb : (allowedEmailsBase env).contains e with
            | true =>
                have hm : e ∈ allowedEmailsBase env := List.elem_iff.mp hb
                have hmf : e ∈ (allowedEmailsBase env).filter (fun x => 0 < x.length) :=
                  List.mem_filter.mpr ⟨hm, by simpa using hepos⟩
                exact (List.elem_iff.mpr hmf).symm
            | false =>
                cases hf : ((allowedEmailsBase env).filter (fun x => 0 < x.length)).contains e with
                | false => rfl
                | true =>
                    have hm := (List.mem_filter.mp (List.elem_iff.mp hf)).1
                    have hb₂ : (allowedEmailsBase env).contains e = true :=
                      List.elem_iff.mpr hm
                    rw [hb] at hb₂
                    simp at hb₂
          rw [decide_eq_true hlenB, decide_eq_true hlenF, hceq]
  · intro e he
    have hepos : (e == ("")) = false := by
      cases hb : e == ("") with
      | false => rfl
      | true => exact absurd (eq_of_beq hb) he
    constructor
    · simp only [verifyBase, verifyEmail]
      rw [if_neg he]
      have hcont : (allowedEmailsBase ("")).contains e = false := by
        cases hb : (allowedEmailsBase ("")).contains e with
        | false => rfl
        | true =>
            have hm : e ∈ allowedEmailsBase ("") := List.elem_iff.mp hb
            have : e = ("") := by simpa [allowedEmailsBase, splitComma, splitCommaAux, trimString] using hm
            exact absurd this he
      rw [hcont]
      rfl
    · simp only [verifyFiltered, verifyEmail]
      rw [if_neg he]
      rfl

/-- Witness for C10: the two parsers agree on a non-empty allow list, and
diverge as stated on the empty variable. -/
theorem C10_witness :
    verifyBase ("a@b.com, c@d.com") (some ("x@y.com"))
      = verifyFiltered ("a@b.com, c@d.com") (some ("x@y.com"))
    ∧ verifyBase ("") (some ("user2@example.com")) = .blocked
    ∧ verifyFiltered ("") (some ("user2@example.com")) = .approved := by
  refine ⟨(C10_parsers_agree ("a@b.com, c@d.com")).1 (some ("x@y.com")) (by decide), ?_, ?_⟩
  · exact ((C10_parsers_agree ("")).2 ("user2@example.com") (by decide)).1
  · exact ((C10_parsers_agree ("")).2 ("user2@example.com") (by decide)).2

end Whatstrax
